import Mathlib

/-!
Verification of the ingestion/indexing pipeline of `acm_scholar_cli`
(`core/downloader.py` and `db/surrealdb.py`) against its design
specification.  Python functions are shallowly embedded as Lean functions;
the `while` loop of `_chunk_text` is embedded fuel-indexed (a `none` result
means the loop is still running after the given number of iterations), and
fallible Python code returns `Except`.
-/

namespace AcmScholarCli

/-- Python exception kinds raised by the embedded code. -/
inductive PyErr where
  | nameError (n : String)
  | indexError
  | exception (msg : String)
deriving DecidableEq, Repr

/-- Truthiness of an optional Python string: `None` and the empty string are
falsy, every other string is truthy. -/
def pyTruthyStr : Option String → Bool
  | none => false
  | some s => !(s == "")

/-- Python slice `s[a:b]` on a list of characters, with negative indices
counting from the end and out-of-range indices clamped, as in CPython. -/
def pySlice (s : List Char) (a b : Int) : List Char :=
  let n : Int := s.length
  let lo : Int := if a < 0 then max (n + a) 0 else min a n
  let hi : Int := if b < 0 then max (n + b) 0 else min b n
  (s.take hi.toNat).drop lo.toNat

/-- The `while` loop of `PaperDownloader._chunk_text`
(`core/downloader.py`, lines 150-156), one fuel unit per iteration:

    while start < text_len:
        end = min(start + chunk_size, text_len)
        chunks.append(text[start:end])
        start = end - overlap
        if start >= text_len:
            break

`none` means the loop has not finished within `fuel` iterations.  Note that
the exit test reads the value of `start` after the overlap was subtracted. -/
def chunkLoop (text : List Char) (chunkSize overlap : Int) :
    Nat → Int → List (List Char) → Option (List (List Char))
  | 0, _, _ => none
  | fuel + 1, start, chunks =>
    if start < (text.length : Int) then
      let e := min (start + chunkSize) (text.length : Int)
      let chunks2 := chunks ++ [pySlice text start e]
      let start2 := e - overlap
      if (text.length : Int) ≤ start2 then some chunks2
      else chunkLoop text chunkSize overlap fuel start2 chunks2
    else some chunks

/-- `PaperDownloader._chunk_text` (`core/downloader.py`, lines 134-158):
`chunks = []`, `start = 0`, then the loop above.  The Python defaults are
`chunk_size = 1000`, `overlap = 200`. -/
def chunk_text (text : List Char) (chunkSize overlap : Int) (fuel : Nat) :
    Option (List (List Char)) :=
  chunkLoop text chunkSize overlap fuel 0 []

/-- Following the words of the spec: re-assemble a chunk list by dropping the
first `overlap` characters of each chunk except the first and concatenating
in ordinal order. -/
def reassemble (overlap : Nat) : List (List Char) → List Char
  | [] => []
  | c :: cs => c ++ (cs.map (List.drop overlap)).flatten

/-- Python `c.isspace()` for the character classes that can occur in this
development (ASCII whitespace). -/
def pyIsSpace (c : Char) : Bool :=
  c == ' ' || c == '\t' || c == '\n' || c == '\r' || c == '\x0b' || c == '\x0c'

/-- Python `s.strip()`: remove leading and trailing whitespace. -/
def pyStrip (s : List Char) : List Char :=
  ((s.dropWhile pyIsSpace).reverse.dropWhile pyIsSpace).reverse

/-- Python `s.split()[-1]`, as an `Option`: the last whitespace-separated
token of `s`, or `none` when `s.split()` is empty (all-whitespace `s`),
in which case the Python expression raises `IndexError`. -/
def lastSplitToken (s : List Char) : Option (List Char) :=
  let r := s.reverse.dropWhile pyIsSpace
  if r.isEmpty then none
  else some ((r.takeWhile (fun c => !(pyIsSpace c))).reverse)

/-- A Paper descriptor as consumed by `PaperDownloader.download_pdf`
(`core/downloader.py`, lines 41-52): `paper.get("title", "unknown")`,
`paper.get("publication_year", "unknown")` and
`paper.get("authorships", [])`.  `authorships` is modelled as the list of
the author display names (`authorships[i]["author"]["display_name"]`). -/
structure Paper where
  title : Option String
  publication_year : Option Int
  authorships : List String

/-- The year as rendered into the f-string of line 55: the integer in
decimal, or the `get` default `"unknown"` when the key is absent. -/
def paperYearStr (p : Paper) : String :=
  match p.publication_year with
  | some y => toString y
  | none => "unknown"

/-- Lines 47-52 of `core/downloader.py`: the surname component of the
filename.  The code reads `authors[0]` (the FIRST author), and takes
`first_author.split()[-1]` when the display name contains a space,
otherwise the whole display name; an empty author list gives `"unknown"`.
`split()[-1]` raises `IndexError` on an all-whitespace name. -/
def author_lastname (authors : List String) : Except PyErr String :=
  match authors with
  | [] => Except.ok "unknown"
  | a :: _ =>
    if a.toList.contains ' ' then
      match lastSplitToken a.toList with
      | some t => Except.ok (String.mk t)
      | none => Except.error PyErr.indexError
    else Except.ok a

/-- Lines 43-44 of `core/downloader.py`:

    safe_title = "".join(c for c in title if c.isalnum() or c in (" ", "-", "_"))[:50]
    safe_title = safe_title.strip().replace(" ", "_")

`Char.isAlphanum` models Python `str.isalnum`; the two agree on the ASCII
inputs this development evaluates. -/
def safe_title (title : String) : String :=
  let kept := title.toList.filter (fun c => c.isAlphanum || c == ' ' || c == '-' || c == '_')
  let truncated := kept.take 50
  String.mk ((pyStrip truncated).map (fun c => if c == ' ' then '_' else c))

/-- The destination filename computed by `PaperDownloader.download_pdf`
(`core/downloader.py`, lines 41-56): `f"{author_lastname}_{year}_{safe_title}.pdf"`. -/
def download_filename (p : Paper) : Except PyErr String :=
  let t := match p.title with
    | some t => t
    | none => "unknown"
  match author_lastname p.authorships with
  | Except.error e => Except.error e
  | Except.ok lastname =>
      Except.ok (lastname ++ "_" ++ paperYearStr p ++ "_" ++ safe_title t ++ ".pdf")

/-- Following the words of the claim: the title with only alphanumerics,
spaces, dashes and underscores retained, truncated to 50 characters, and
spaces replaced by underscores (the claim mentions no strip step). -/
def spec_sanitized_title (title : String) : String :=
  String.mk (((title.toList.filter
      (fun c => c.isAlphanum || c == ' ' || c == '-' || c == '_')).take 50).map
    (fun c => if c == ' ' then '_' else c))

/-- Following the words of the claim: the filename
`{lastAuthorSurname}_{year}_{sanitizedTitle}.pdf` where `lastAuthorSurname`
is the surname (last whitespace-separated token) of the LAST author in the
ordered list; `none` when the author list is empty. -/
def spec_filename (p : Paper) : Option String :=
  match p.authorships.getLast? with
  | none => none
  | some a =>
    let surname := match lastSplitToken a.toList with
      | some t => String.mk t
      | none => a
    let t := match p.title with
      | some t => t
      | none => "unknown"
    some (surname ++ "_" ++ paperYearStr p ++ "_" ++ spec_sanitized_title t ++ ".pdf")

/-- The names bound at module level in `core/downloader.py`: its imports
(lines 3-7) and the class it defines.  `console` is not among them, and the
module has no star-imports, so a lookup of `console` raises `NameError`. -/
def downloaderModuleNames : List String :=
  ["Path", "Optional", "httpx", "Progress", "Config", "PaperDownloader"]

/-- Evaluation of a bare name in the module scope of `core/downloader.py`:
a name not bound in the module (and not a builtin) raises `NameError`. -/
def evalDownloaderName (n : String) : Except PyErr Unit :=
  if downloaderModuleNames.contains n then Except.ok ()
  else Except.error (PyErr.nameError n)

/-- A `console.print(...)` statement in `core/downloader.py`: evaluating the
name `console` comes first; with the lookup failing, the call raises
`NameError` whatever the message argument is. -/
def consolePrint (msg : String) : Except PyErr Unit :=
  match evalDownloaderName "console" with
  | Except.error e => Except.error e
  | Except.ok _ =>
      let _ := msg
      Except.ok ()

/-- `PaperDownloader.index_paper` (`core/downloader.py`, lines 79-107).
When `config.database.host` is falsy the method first runs
`console.print("[yellow]未配置数据库，跳过索引建立[/yellow]")` and only then
`return ""`.  The configured-database branch (extract → chunk → embed →
store) is abstracted by the `dbBranch` argument; no theorem below evaluates
it. -/
def index_paper (host : Option String) (dbBranch : Except PyErr String) :
    Except PyErr String :=
  if !(pyTruthyStr host) then
    match consolePrint "[yellow]未配置数据库，跳过索引建立[/yellow]" with
    | Except.error e => Except.error e
    | Except.ok _ => Except.ok ""
  else dbBranch

/-- The LLM section of the configuration (`config_manager.py`): both fields
default to `None`. -/
structure LLMConfig where
  provider : Option String
  api_key : Option String

/-- `PaperDownloader._generate_remote_embeddings` (`core/downloader.py`,
lines 176-189): the body is `console.print("[yellow]使用远程嵌入 API[/yellow]")`
followed by the placeholder `return []`. -/
def generate_remote_embeddings (chunks : List String) : Except PyErr (List (List Int)) :=
  let _ := chunks
  match consolePrint "[yellow]使用远程嵌入 API[/yellow]" with
  | Except.error e => Except.error e
  | Except.ok _ => Except.ok []

/-- `PaperDownloader._generate_local_embeddings` (`core/downloader.py`,
lines 191-210) in the environment the claim describes: the local model
library (`sentence_transformers`) is not importable, so the `try` body
raises `ImportError` and the `except ImportError` handler runs; the first
statement of that handler is
`console.print("[yellow]sentence-transformers 未安装，跳过嵌入生成[/yellow]")`,
followed by `return []`. -/
def generate_local_embeddings (chunks : List String) : Except PyErr (List (List Int)) :=
  let _ := chunks
  match consolePrint "[yellow]sentence-transformers 未安装，跳过嵌入生成[/yellow]" with
  | Except.error e => Except.error e
  | Except.ok _ => Except.ok []

/-- `PaperDownloader._generate_embeddings` (`core/downloader.py`, lines
160-174): the remote path is taken when `config.llm.api_key` is truthy and
`config.llm.provider != "ollama"`, otherwise the local path. -/
def generate_embeddings (llm : LLMConfig) (chunks : List String) :
    Except PyErr (List (List Int)) :=
  if pyTruthyStr llm.api_key && !(llm.provider == some "ollama") then
    generate_remote_embeddings chunks
  else
    generate_local_embeddings chunks

/-- Following the words of the spec: the distinguished error the provider is
claimed to signal when no embedding backend is usable.  The source never
constructs such a value. -/
def spec_embedding_unavailable : PyErr :=
  PyErr.exception "EmbeddingUnavailable"

/-- The page loop of `PaperDownloader._extract_text` (`core/downloader.py`,
lines 125-128).  Each element of `pages` is the outcome of
`page.extract_text()` for one page: `Except.error` when the call raises,
`Except.ok` with the returned text otherwise.  A raised exception escapes
the loop (the `try` of lines 119-131 wraps the whole loop); a falsy (empty)
text is simply not appended. -/
def extract_loop : List (Except String String) → List String → Except String (List String)
  | [], parts => Except.ok parts
  | Except.error e :: _, _ => Except.error e
  | Except.ok t :: rest, parts =>
      extract_loop rest (if t == "" then parts else parts ++ [t])

/-- `PaperDownloader._extract_text` (`core/downloader.py`, lines 109-132):
run the page loop; `"\n\n".join(text_parts)` on success, and the outer
`except Exception` re-raises any page exception wrapped as
`Exception(f"PDF 文本提取失败: {e}")`. -/
def extract_text (pages : List (Except String String)) : Except String String :=
  match extract_loop pages [] with
  | Except.error e => Except.error ("PDF 文本提取失败: " ++ e)
  | Except.ok parts => Except.ok (String.intercalate "\n\n" parts)

/-- The first page whose extraction raises, if any. -/
def firstPageError : List (Except String String) → Option String
  | [] => none
  | Except.error e :: _ => some e
  | Except.ok _ :: rest => firstPageError rest

/-- The non-empty texts among the successfully extracted pages, in order. -/
def keptTexts (pages : List (Except String String)) : List String :=
  (pages.filterMap Except.toOption).filter (fun t => !(t == ""))

/-- Following the words of the claim: skip the pages whose extraction fails
and join the non-empty texts of the remaining pages with the
paragraph-break separator. -/
def spec_extract (pages : List (Except String String)) : String :=
  String.intercalate "\n\n" (keptTexts pages)

/-- What `PaperDownloader.download_pdf` leaves behind: the content of the
file at the destination path after the call (`none`: no file was created
there), and the exception that propagated out of the call, if any. -/
structure FetchOutcome where
  destination : Option (List Nat)
  raised : Option String
deriving DecidableEq, Repr

/-- The write loop of `download_pdf` (`core/downloader.py`, lines 64-75):
each element of the stream is a chunk of bytes yielded by
`response.iter_bytes(chunk_size=8192)`, or `Except.error` when the stream
raises at that point.  The file has already been opened at the destination,
so on an error the bytes received so far are what the destination holds. -/
def write_loop : List (Except String (List Nat)) → List Nat → FetchOutcome
  | [], written => { destination := some written, raised := none }
  | Except.ok c :: rest, written => write_loop rest (written ++ c)
  | Except.error e :: _, written => { destination := some written, raised := some e }

/-- The streaming part of `PaperDownloader.download_pdf` (`core/downloader.py`,
lines 59-77): `raise_for_status()` first (a non-2xx final status raises
before any file is opened), then `open(file_path, "wb")` creates/truncates
the file at the FINAL destination path and the loop writes into it.  There
is no temporary path and no rename. -/
def download_pdf_write (statusOk : Bool) (events : List (Except String (List Nat))) :
    FetchOutcome :=
  if statusOk then write_loop events []
  else { destination := none, raised := some "HTTPStatusError" }

/-- The handle `self.client` of `SurrealDBClient` together with the effect of
`self.client.query(q)`: `none` models an unconfigured client (`self.client =
None`), `some run` a connected one whose `query` behaves like `run`. -/
abbrev QueryFn := String → Except String String

/-- A paper row as rendered into the query of `SurrealDBClient.add_paper`.
`authorsRepr` stands for the Python rendering of the `authorships` list,
which the query embeds verbatim. -/
structure SPaper where
  id : String
  title : String
  authorsRepr : String
  year : Int
  abstract : String
  local_path : String
  doi : String

/-- Python `.replace(chr(39), chr(39) + chr(39))`: double every single-quote
character. -/
def sqlEscape (s : String) : String :=
  String.mk (s.toList.flatMap (fun c => if c == Char.ofNat 39 then [Char.ofNat 39, Char.ofNat 39] else [c]))

/-- The query string built by `SurrealDBClient.add_paper`
(`db/surrealdb.py`, lines 80-90). -/
def addPaperQuery (p : SPaper) : String :=
  "CREATE papers SET id = '" ++ p.id ++ "', title = '" ++ sqlEscape p.title ++
  "', authors = " ++ p.authorsRepr ++ ", year = " ++ toString p.year ++
  ", abstract = '" ++ sqlEscape p.abstract ++ "', local_path = '" ++ p.local_path ++
  "', doi = '" ++ p.doi ++ "', created_at = time::now()"

/-- `SurrealDBClient.add_paper` (`db/surrealdb.py`, lines 66-93): with
`self.client` unset, `return ""` before any query; otherwise issue the
CREATE query, returning `str(result)` or re-raising a wrapped exception.
The second component is the list of queries issued to the store. -/
def add_paper (client : Option QueryFn) (p : SPaper) :
    Except PyErr String × List String :=
  match client with
  | none => (Except.ok "", [])
  | some run =>
      match run (addPaperQuery p) with
      | Except.ok r => (Except.ok r, [addPaperQuery p])
      | Except.error e => (Except.error (PyErr.exception ("添加论文失败: " ++ e)), [addPaperQuery p])

/-- The query string built by `SurrealDBClient.add_chunk`
(`db/surrealdb.py`, lines 111-116); the embedding list is rendered into the
f-string. -/
def addChunkQuery (paper_id content : String) (embedding : List Int) : String :=
  "CREATE chunks SET paper_id = '" ++ paper_id ++ "', content = '" ++
  sqlEscape content ++ "', embedding = " ++ toString embedding

/-- `SurrealDBClient.add_chunk` (`db/surrealdb.py`, lines 95-119): with
`self.client` unset, `return ""` before any query. -/
def add_chunk (client : Option QueryFn) (paper_id content : String)
    (embedding : List Int) : Except PyErr String × List String :=
  match client with
  | none => (Except.ok "", [])
  | some run =>
      match run (addChunkQuery paper_id content embedding) with
      | Except.ok r => (Except.ok r, [addChunkQuery paper_id content embedding])
      | Except.error e =>
          (Except.error (PyErr.exception ("添加文本块失败: " ++ e)),
           [addChunkQuery paper_id content embedding])

/-- `SurrealDBClient.delete_paper` (`db/surrealdb.py`, lines 190-210): with
`self.client` unset, `return False` before any query; otherwise delete the
paper row and then its chunk rows, returning `True`. -/
def delete_paper (client : Option QueryFn) (paper_id : String) :
    Except PyErr Bool × List String :=
  match client with
  | none => (Except.ok false, [])
  | some run =>
      let q1 := "DELETE FROM papers WHERE id = '" ++ paper_id ++ "'"
      match run q1 with
      | Except.error e => (Except.error (PyErr.exception ("删除论文失败: " ++ e)), [q1])
      | Except.ok _ =>
          let q2 := "DELETE FROM chunks WHERE paper_id = '" ++ paper_id ++ "'"
          match run q2 with
          | Except.error e => (Except.error (PyErr.exception ("删除论文失败: " ++ e)), [q1, q2])
          | Except.ok _ => (Except.ok true, [q1, q2])

/-- If the loop of `_chunk_text` with the default parameters ever reaches
`start = len(text) - 200`, it stays there forever: the next chunk end is
`len(text)` and the next start is again `len(text) - 200 < len(text)`. -/
theorem chunkLoop_default_fixed (text : List Char) :
    ∀ (fuel : Nat) (chunks : List (List Char)),
      chunkLoop text 1000 200 fuel ((text.length : Int) - 200) chunks = none := by
  intro fuel
  induction fuel with
  | zero => intro chunks; rfl
  | succ n ih =>
    intro chunks
    have hmin : min ((text.length : Int) - 200 + 1000) ((text.length : Int))
        = (text.length : Int) := min_eq_right (by linarith)
    simp only [chunkLoop, hmin]
    rw [if_pos (sub_lt_self _ (by norm_num))]
    rw [if_neg (by linarith)]
    exact ih _

/-- With `overlap ≥ size > 0` and any non-empty text, once `start ≤ 0` the
loop of `_chunk_text` keeps `start ≤ 0` forever: each iteration moves `start`
to `min(start + size, len) - overlap ≤ start`. -/
theorem chunkLoop_stuck_of_overlap_ge_size (text : List Char) (size overlap : Int)
    (hov : size ≤ overlap) (hL : 0 < (text.length : Int)) :
    ∀ (fuel : Nat) (start : Int), start ≤ 0 → ∀ (chunks : List (List Char)),
      chunkLoop text size overlap fuel start chunks = none := by
  intro fuel
  induction fuel with
  | zero => intro start _ chunks; rfl
  | succ n ih =>
    intro start hstart chunks
    have hs2 : min (start + size) ((text.length : Int)) - overlap ≤ 0 := by
      have h1 : min (start + size) ((text.length : Int)) ≤ start + size :=
        min_le_left _ _
      linarith
    simp only [chunkLoop]
    rw [if_pos (lt_of_le_of_lt hstart hL)]
    rw [if_neg (by linarith)]
    exact ih _ hs2 _

/-- Shared helper: on any non-empty text of length at most 1000, with the
default parameters `size = 1000, overlap = 200`, the loop of `_chunk_text`
never finishes, for any amount of fuel. -/
theorem chunk_text_default_none_of_small (text : List Char)
    (h1 : 0 < text.length) (h2 : text.length ≤ 1000) :
    ∀ (fuel : Nat), chunk_text text 1000 200 fuel = none := by
  intro fuel
  cases fuel with
  | zero => rfl
  | succ n =>
    have hL : (0 : Int) < (text.length : Int) := by exact_mod_cast h1
    have hle : (text.length : Int) ≤ 0 + 1000 := by
      have : (text.length : Int) ≤ 1000 := by exact_mod_cast h2
      linarith
    have hmin : min ((0 : Int) + 1000) ((text.length : Int)) = (text.length : Int) :=
      min_eq_right hle
    show chunkLoop text 1000 200 (n + 1) 0 [] = none
    simp only [chunkLoop, hmin]
    rw [if_pos hL]
    rw [if_neg (by linarith)]
    exact chunkLoop_default_fixed text n _

/-- With the default parameters and `len(text) = 2500`, once the loop of
`_chunk_text` reaches `start = 1600` it never finishes: the next start is
`2500 - 200 = 2300`, the fixed point. -/
theorem chunkLoop_2500_from_1600 (text : List Char) (h : text.length = 2500) :
    ∀ (fuel : Nat) (chunks : List (List Char)),
      chunkLoop text 1000 200 fuel 1600 chunks = none := by
  intro fuel
  cases fuel with
  | zero => intro chunks; rfl
  | succ n =>
    intro chunks
    have hL : (text.length : Int) = 2500 := by exact_mod_cast h
    have hmin : min ((1600 : Int) + 1000) 2500 = 2500 := by norm_num
    simp only [chunkLoop, hL, hmin]
    rw [if_pos (by norm_num : (1600 : Int) < 2500)]
    rw [if_neg (by norm_num : ¬ ((2500 : Int) ≤ 2500 - 200))]
    have h2300 : ((2500 : Int) - 200) = ((text.length : Int) - 200) := by rw [hL]
    rw [h2300]
    exact chunkLoop_default_fixed text n _

/-- With the default parameters and `len(text) = 2500`, from `start = 800`
the loop of `_chunk_text` never finishes. -/
theorem chunkLoop_2500_from_800 (text : List Char) (h : text.length = 2500) :
    ∀ (fuel : Nat) (chunks : List (List Char)),
      chunkLoop text 1000 200 fuel 800 chunks = none := by
  intro fuel
  cases fuel with
  | zero => intro chunks; rfl
  | succ n =>
    intro chunks
    have hL : (text.length : Int) = 2500 := by exact_mod_cast h
    have hmin : min ((800 : Int) + 1000) 2500 = 1800 := by norm_num
    simp only [chunkLoop, hL, hmin]
    rw [if_pos (by norm_num : (800 : Int) < 2500)]
    rw [if_neg (by norm_num : ¬ ((2500 : Int) ≤ 1800 - 200))]
    have h1600 : ((1800 : Int) - 200) = 1600 := by norm_num
    rw [h1600]
    exact chunkLoop_2500_from_1600 text h n _

/-- C1: the claim states that on every valid input (`size > 0`,
`0 ≤ overlap < size`) the chunking loop makes forward progress and
terminates when the chunk end reaches `len(text)`.  The code refutes it:
its exit test reads `start` AFTER the overlap subtraction, so with the
default valid parameters `size = 1000, overlap = 200` the loop never
finishes on any non-empty text — shown here for every text of length at
most 1000 and every iteration budget. -/
theorem chunk_text_never_terminates (text : List Char)
    (h1 : 0 < text.length) (h2 : text.length ≤ 1000) :
    ∀ (fuel : Nat), chunk_text text 1000 200 fuel = none :=
  chunk_text_default_none_of_small text h1 h2

/-- Witness for C1 at the one-character text. -/
theorem chunk_text_never_terminates_witness :
    chunk_text ['a'] 1000 200 9 = none :=
  chunk_text_never_terminates ['a'] (by decide) (by decide) 9

/-- C2: the claim states that re-assembling the chunks returned by
`chunk(text, size, overlap)` (dropping each later chunk's first `overlap`
characters) yields the original text.  The code refutes it on the valid
parameters `size = 1000, overlap = 200`: the loop never returns a chunk
list at all on any non-empty text of length at most 1000, so no returned
chunk list re-assembles to the text. -/
theorem chunk_reconstruction_unattainable (text : List Char)
    (h1 : 0 < text.length) (h2 : text.length ≤ 1000) :
    ∀ (fuel : Nat),
      ¬ ∃ cs, chunk_text text 1000 200 fuel = some cs ∧ reassemble 200 cs = text := by
  intro fuel hex
  obtain ⟨cs, hcs, _⟩ := hex
  rw [chunk_text_default_none_of_small text h1 h2 fuel] at hcs
  exact Option.noConfusion hcs

/-- Witness for C2 at the one-character text. -/
theorem chunk_reconstruction_unattainable_witness :
    ¬ ∃ cs, chunk_text ['b'] 1000 200 5 = some cs ∧ reassemble 200 cs = ['b'] :=
  chunk_reconstruction_unattainable ['b'] (by decide) (by decide) 5

/-- C3: the claim states that on a 2500-character text with
`size = 1000, overlap = 200` the chunker returns exactly 3 chunks of
lengths 1000, 1000, 700.  The code refutes it: the loop visits starts
0, 800, 1600 and then loops forever at start 2300, never returning. -/
theorem chunk_text_2500_loops_forever (text : List Char) (h : text.length = 2500) :
    ∀ (fuel : Nat), chunk_text text 1000 200 fuel = none := by
  intro fuel
  cases fuel with
  | zero => rfl
  | succ n =>
    have hL : (text.length : Int) = 2500 := by exact_mod_cast h
    have hmin : min ((0 : Int) + 1000) 2500 = 1000 := by norm_num
    show chunkLoop text 1000 200 (n + 1) 0 [] = none
    simp only [chunkLoop, hL, hmin]
    rw [if_pos (by norm_num : (0 : Int) < 2500)]
    rw [if_neg (by norm_num : ¬ ((2500 : Int) ≤ 1000 - 200))]
    have h800 : ((1000 : Int) - 200) = 800 := by norm_num
    rw [h800]
    exact chunkLoop_2500_from_800 text h n _

/-- Witness for C3 at a concrete 2500-character text. -/
theorem chunk_text_2500_loops_forever_witness :
    chunk_text (List.replicate 2500 'a') 1000 200 11 = none :=
  chunk_text_2500_loops_forever (List.replicate 2500 'a') (by rw [List.length_replicate]) 11

/-- C9: the claim states that for `overlap ≥ size` the chunking operation
raises a validation error instead of entering a non-terminating loop.  The
code refutes it: `_chunk_text` validates nothing, and on any non-empty
text with `overlap ≥ size` the loop makes no forward progress (`start`
never increases past 0) and never finishes, for any iteration budget —
in particular it never raises anything. -/
theorem chunk_text_overlap_ge_size_no_error (text : List Char) (size overlap : Int)
    (h1 : 0 < text.length) (hov : size ≤ overlap) :
    ∀ (fuel : Nat), chunk_text text size overlap fuel = none := by
  intro fuel
  have hL : (0 : Int) < (text.length : Int) := by exact_mod_cast h1
  exact chunkLoop_stuck_of_overlap_ge_size text size overlap hov hL fuel 0 le_rfl []

/-- Witness for C9 at a one-character text with `size = overlap = 1`. -/
theorem chunk_text_overlap_ge_size_no_error_witness :
    chunk_text ['c'] 1 1 7 = none :=
  chunk_text_overlap_ge_size_no_error ['c'] 1 1 (by decide) (by norm_num) 7

/-- C4: the claim states that with no database host configured,
`index_paper` returns the not-configured result (the `Skipped` outcome,
`""`) without raising.  The code refutes it: before the `return ""` of line
93 it executes `console.print(...)` (line 92), and `core/downloader.py`
neither defines nor imports `console`, so the call raises `NameError` —
for a host of `None` and of `""` alike, and whatever the configured-database
branch would do. -/
theorem index_paper_unconfigured_raises_name_error :
    ∀ (dbBranch : Except PyErr String),
      index_paper none dbBranch = Except.error (PyErr.nameError "console") ∧
      index_paper (some "") dbBranch = Except.error (PyErr.nameError "console") ∧
      index_paper none dbBranch ≠ Except.ok "" := by
  intro dbBranch
  refine ⟨rfl, rfl, ?_⟩
  intro h
  have h0 : (Except.error (PyErr.nameError "console") : Except PyErr String)
      = Except.ok "" := h
  exact Except.noConfusion h0

/-- Counterexample for C5: at the concrete paper with title
`"Deep Learning"`, year 2020 and authors `["Alice Smith", "Bob Jones"]`,
`download_pdf` derives `Smith_2020_Deep_Learning.pdf` — the surname of the
FIRST author — while the formula of the claim gives
`Jones_2020_Deep_Learning.pdf`. -/
theorem download_filename_uses_first_author_cex :
    download_filename ⟨some "Deep Learning", some 2020, ["Alice Smith", "Bob Jones"]⟩
      = Except.ok "Smith_2020_Deep_Learning.pdf" ∧
    spec_filename ⟨some "Deep Learning", some 2020, ["Alice Smith", "Bob Jones"]⟩
      = some "Jones_2020_Deep_Learning.pdf" ∧
    download_filename ⟨some "Deep Learning", some 2020, ["Alice Smith", "Bob Jones"]⟩
      ≠ Except.ok "Jones_2020_Deep_Learning.pdf" := by
  refine ⟨rfl, rfl, ?_⟩
  intro h
  have h0 : (Except.ok "Smith_2020_Deep_Learning.pdf" : Except PyErr String)
      = Except.ok "Jones_2020_Deep_Learning.pdf" := h
  exact absurd (Except.ok.inj h0) (by decide)

/-- C5 as amended: the destination filename is
`{firstAuthorSurname}_{year}_{sanitizedTitle}.pdf` — it depends only on the
FIRST author of the list (its last whitespace-separated token when the
display name contains a space, the whole name otherwise), with the
sanitized title additionally stripped of surrounding whitespace before the
space-to-underscore replacement. -/
theorem download_filename_first_author_formula :
    ∀ (t : String) (y : Int) (a : String) (rest : List String),
      download_filename ⟨some t, some y, a :: rest⟩ =
        (author_lastname [a]).map
          (fun lastname => lastname ++ "_" ++ toString y ++ "_" ++ safe_title t ++ ".pdf") := by
  intro t y a rest
  have h : author_lastname (a :: rest) = author_lastname [a] := rfl
  cases hA : author_lastname [a] with
  | error e => simp [download_filename, h, hA, Except.map, paperYearStr]
  | ok lastname => simp [download_filename, h, hA, Except.map, paperYearStr]

/-- Counterexample for C6: with no usable embedding backend — no API key
configured (local path), or a key with a non-ollama provider but the remote
path still a placeholder — `_generate_embeddings` does not signal
`EmbeddingUnavailable`: both paths raise `NameError` at their
`console.print` call. -/
theorem generate_embeddings_not_embedding_unavailable_cex :
    generate_embeddings ⟨none, none⟩ ["chunk"]
      = Except.error (PyErr.nameError "console") ∧
    generate_embeddings ⟨some "openai", some "sk-key"⟩ ["chunk"]
      = Except.error (PyErr.nameError "console") ∧
    generate_embeddings ⟨none, none⟩ ["chunk"]
      ≠ Except.error spec_embedding_unavailable ∧
    generate_embeddings ⟨some "openai", some "sk-key"⟩ ["chunk"]
      ≠ Except.error spec_embedding_unavailable := by
  refine ⟨rfl, rfl, ?_, ?_⟩ <;> intro h
  · have h0 : (Except.error (PyErr.nameError "console") : Except PyErr (List (List Int)))
        = Except.error spec_embedding_unavailable := h
    exact absurd (Except.error.inj h0) (by decide)
  · have h0 : (Except.error (PyErr.nameError "console") : Except PyErr (List (List Int)))
        = Except.error spec_embedding_unavailable := h
    exact absurd (Except.error.inj h0) (by decide)

/-- C6 as amended: whatever the LLM configuration, `_generate_embeddings`
never signals `EmbeddingUnavailable` and never returns a vector list at
all: both the remote and the local path first call `console.print`, a name
unbound in `core/downloader.py`, so every call raises `NameError` (were the
print reached, each path would return the empty placeholder list). -/
theorem generate_embeddings_raises_name_error :
    ∀ (llm : LLMConfig) (chunks : List String),
      generate_embeddings llm chunks = Except.error (PyErr.nameError "console") := by
  intro llm chunks
  unfold generate_embeddings
  split <;> rfl

/-- The page loop of `_extract_text` stops at the first page whose
extraction raises; when no page raises it accumulates exactly the non-empty
page texts. -/
theorem extract_loop_characterization (pages : List (Except String String)) :
    ∀ (acc : List String),
      extract_loop pages acc =
        match firstPageError pages with
        | some e => Except.error e
        | none => Except.ok (acc ++ keptTexts pages) := by
  induction pages with
  | nil => intro acc; simp [extract_loop, firstPageError, keptTexts]
  | cons p rest ih =>
    intro acc
    cases p with
    | error e => simp [extract_loop, firstPageError]
    | ok t =>
      simp only [extract_loop, firstPageError]
      rw [ih]
      cases hF : firstPageError rest with
      | some e => rfl
      | none =>
        by_cases ht : t = ""
        · simp [keptTexts, ht, Except.toOption]
        · simp [keptTexts, ht, Except.toOption, List.filterMap_cons, List.append_assoc]

/-- Counterexample for C7: with three pages whose extractions give
`"alpha"`, a raised exception `"boom"`, and `"beta"`, the code aborts the
whole document with the wrapped error, instead of skipping the failing page
and returning the other two texts as the claim states. -/
theorem extract_text_page_failure_cex :
    extract_text [Except.ok "alpha", Except.error "boom", Except.ok "beta"]
      = Except.error ("PDF 文本提取失败: boom") ∧
    spec_extract [Except.ok "alpha", Except.error "boom", Except.ok "beta"]
      = "alpha\n\nbeta" ∧
    extract_text [Except.ok "alpha", Except.error "boom", Except.ok "beta"]
      ≠ Except.ok (spec_extract [Except.ok "alpha", Except.error "boom", Except.ok "beta"]) := by
  refine ⟨rfl, rfl, ?_⟩
  intro h
  have h0 : (Except.error ("PDF 文本提取失败: boom") : Except String String)
      = Except.ok "alpha\n\nbeta" := h
  exact Except.noConfusion h0

/-- C7 as amended: `_extract_text` concatenates the non-empty per-page
texts with the paragraph-break separator, skipping pages whose extraction
RETURNS empty text; but a page whose extraction RAISES is not skipped — the
first such exception escapes the page loop and the whole document fails
with the wrapped extraction error. -/
theorem extract_text_characterization :
    ∀ (pages : List (Except String String)),
      extract_text pages =
        match firstPageError pages with
        | some e => Except.error ("PDF 文本提取失败: " ++ e)
        | none => Except.ok (spec_extract pages) := by
  intro pages
  unfold extract_text
  rw [extract_loop_characterization]
  cases firstPageError pages with
  | some e => rfl
  | none => simp [spec_extract]

/-- Writing a run of successfully received chunks appends their bytes to
the already written prefix. -/
theorem write_loop_append (good : List (List Nat)) :
    ∀ (rest : List (Except String (List Nat))) (written : List Nat),
      write_loop (good.map Except.ok ++ rest) written
        = write_loop rest (written ++ good.flatten) := by
  induction good with
  | nil => intro rest written; simp
  | cons c cs ih =>
    intro rest written
    simp only [List.map_cons, List.cons_append, write_loop, List.append_eq]
    rw [ih]
    simp [List.append_assoc]

/-- Counterexample for C8: a stream that yields the bytes `[1, 2]` and then
fails leaves a file at the FINAL destination path holding exactly those
partial bytes while the exception propagates — the claim states the
destination would be unchanged (no file). -/
theorem download_pdf_partial_file_cex :
    download_pdf_write true [Except.ok [1, 2], Except.error "connection reset"]
      = { destination := some [1, 2], raised := some "connection reset" } ∧
    (download_pdf_write true [Except.ok [1, 2], Except.error "connection reset"]).destination
      ≠ none := by
  refine ⟨rfl, ?_⟩
  intro h
  have h0 : (some [1, 2] : Option (List Nat)) = none := h
  exact Option.noConfusion h0

/-- C8 as amended: `download_pdf` streams directly into the final
destination path with no temporary file and no rename: opening the
destination truncates it; when the stream fails after a prefix of chunks
the exception propagates while the destination retains exactly the bytes of
that prefix; a complete stream leaves the full body; only a non-2xx status
(raised before the file is opened) leaves no file behind. -/
theorem download_pdf_write_characterization :
    (∀ (good : List (List Nat)) (e : String) (tail : List (Except String (List Nat))),
      download_pdf_write true (good.map Except.ok ++ Except.error e :: tail)
        = { destination := some good.flatten, raised := some e }) ∧
    (∀ (good : List (List Nat)),
      download_pdf_write true (good.map Except.ok)
        = { destination := some good.flatten, raised := none }) ∧
    (∀ (events : List (Except String (List Nat))),
      download_pdf_write false events
        = { destination := none, raised := some "HTTPStatusError" }) := by
  refine ⟨?_, ?_, ?_⟩
  · intro good e tail
    show write_loop (good.map Except.ok ++ Except.error e :: tail) [] = _
    rw [write_loop_append]
    simp [write_loop]
  · intro good
    show write_loop (good.map Except.ok) [] = _
    have h := write_loop_append good [] []
    simp only [List.append_nil] at h
    rw [h]
    simp [write_loop]
  · intro events
    rfl

/-- C10: with no backing store configured (`self.client = None`), each of
the three mutation operations of `SurrealDBClient` is a no-op: it issues no
query to the store, raises nothing, and returns its designated
not-configured result — `""` for `add_paper` and `add_chunk`, `False` for
`delete_paper` — whatever the arguments. -/
theorem store_mutations_noop_when_unconfigured :
    ∀ (p : SPaper) (paper_id content : String) (embedding : List Int),
      add_paper none p = (Except.ok "", []) ∧
      add_chunk none paper_id content embedding = (Except.ok "", []) ∧
      delete_paper none paper_id = (Except.ok false, []) := by
  intro p paper_id content embedding
  exact ⟨rfl, rfl, rfl⟩

end AcmScholarCli
